import Mathlib

/-!
Shallow embedding of the commit-message validator from
`check_commits.py` (function `validate_commit_message`, lines 48-92),
together with theorems settling the specification claims about it.

Python strings are modelled as Lean `String` values and Python string
methods (`splitlines`, `strip`, `lower`, `startswith`, substring `in`)
are translated at the character-list level, covering the ASCII
behaviour of those methods (`splitlines` splits on LF, CR and CRLF;
`strip` removes ASCII whitespace).  Python list indexing that can raise
`IndexError` (`lines[-1]` on an empty list, `lines[-2]` on a
single-element list) is modelled by returning `none` from the
validator: `some (sha, errors)` is a normal return, `none` is an
uncaught exception.
-/

namespace CheckCommits

/-- ASCII whitespace stripped by Python `str.strip()`. -/
def pyIsSpace (c : Char) : Bool :=
  c == ' ' || c == '\t' || c == '\n' || c == '\r' || c == '\x0b' || c == '\x0c'

/-- Python `s.strip()`: remove leading and trailing whitespace. -/
def pyStrip (s : String) : String :=
  String.mk (((s.data.dropWhile pyIsSpace).reverse.dropWhile pyIsSpace).reverse)

/-- Python `s.lower()` (ASCII letters). -/
def pyLower (s : String) : String :=
  String.mk (s.data.map Char.toLower)

/-- Python `pat in hay` on character lists: `needle` occurs as a
contiguous sublist of the second argument. -/
def isSub (needle : List Char) : List Char → Bool
  | [] => needle.isEmpty
  | c :: rest => needle.isPrefixOf (c :: rest) || isSub needle rest

/-- Python `pat in hay` for strings. -/
def pyContains (hay pat : String) : Bool :=
  isSub pat.data hay.data

/-- Python `s.startswith(pat)`. -/
def pyStartsWith (s pat : String) : Bool :=
  pat.data.isPrefixOf s.data

/-- Worker for `pySplitlines`.  The first argument records whether the
previous character was a CR, so that a following LF is swallowed
(CRLF counts as a single line break). -/
def splitlinesAux : Bool → List Char → List Char → List String
  | _, [], acc => if acc.isEmpty then [] else [String.mk acc.reverse]
  | skipLF, c :: rest, acc =>
    if skipLF && c == '\n' then splitlinesAux false rest acc
    else if c == '\n' then String.mk acc.reverse :: splitlinesAux false rest []
    else if c == '\r' then String.mk acc.reverse :: splitlinesAux true rest []
    else splitlinesAux false rest (c :: acc)

/-- Python `message.splitlines()` for LF / CR / CRLF breaks; no trailing
empty line is produced. -/
def pySplitlines (s : String) : List String :=
  splitlinesAux false s.data []

/-- One commit record as consumed by `validate_commit_message`: the
fields `commit["sha"]` and `commit["commit"]["message"]`. -/
structure Commit where
  sha : String
  message : String

/-- The lines of a commit's message (line 51 of the source). -/
def linesOf (c : Commit) : List String :=
  pySplitlines c.message

/-- The literal "signed-off-by". -/
def sobText : String := "signed-off-by"

/-- The filter of the body comprehensions (lines 55-59 and 68-72):
keep a line when its stripped form is non-empty and its lowercased
form does not start with "signed-off-by". -/
def isBodyLine (line : String) : Bool :=
  !(pyStrip line == "") && !(pyStartsWith (pyLower line) sobText)

/-- Shared part of the two body comprehensions: filter, then strip
each kept line. -/
def bodyFilter (ls : List String) : List String :=
  (ls.filter isBodyLine).map pyStrip

/-- `body` as first computed on lines 55-59: the comprehension over
`lines[1:]`. -/
def initialBody (lines : List String) : List String :=
  bodyFilter (lines.drop 1)

/-- `body` as recomputed on lines 68-72: the comprehension over
`lines[2:]`. -/
def recomputedBody (lines : List String) : List String :=
  bodyFilter (lines.drop 2)

/-- `subject = lines[0] if n >= 1 else ""` (line 54). -/
def subjectOf (lines : List String) : String :=
  if 1 ≤ lines.length then lines.getD 0 "" else ""

/-- The condition of line 65: `n > 1 and lines[1].strip() != ""`. -/
def missingSubBodyFlag (lines : List String) : Bool :=
  decide (1 < lines.length) && !(pyStrip (lines.getD 1 "") == "")

/-- The body finally used for error reporting: the initial
comprehension, overwritten from `lines[2:]` when blank-line checking is
on and line 1 is blank or absent (lines 64-72). -/
def finalBody (lines : List String) (cb : Bool) : List String :=
  if cb then
    if missingSubBodyFlag lines then initialBody lines else recomputedBody lines
  else initialBody lines

/-- `signed_off = lines[-1] if "signed-off-by" in lines[-1].lower() else ""`
(line 60), as a function of the last line. -/
def signedOffOf (lastLine : String) : String :=
  if pyContains (pyLower lastLine) sobText then lastLine else ""

/-- Error string of line 78. -/
def missingSubjectMsg : String := "Commit message is missing subject!"

/-- Error string of line 80 (an f-string naming the limit). -/
def subjectError (limit : Int) : String :=
  "Subject exceeds " ++ toString limit ++ " characters!"

/-- Error string of line 83. -/
def sepSubjectBodyMsg : String := "Subject and body must be separated by a blank line"

/-- Error string of line 85. -/
def sepBodySignoffMsg : String := "Body and Signed-off-by must be separated by a blank line"

/-- Error string of line 87. -/
def missingBodyMsg : String := "Commit message is missing a body!"

/-- Error string of line 90 (an f-string naming the limit and the line). -/
def lineError (limit : Int) (line : String) : String :=
  "Line exceeds " ++ toString limit ++ " characters: " ++ line

/-- The loop of lines 88-90: one error per body line longer than the
limit, in body order. -/
def lineErrors (body : List String) (limit : Int) : List String :=
  body.filterMap fun line =>
    if limit < (line.length : Int) then some (lineError limit line) else none

/-- The error accumulation of lines 76-90.  `cb` is the (pure, repeated)
test `check_blank_line.lower() == "true"`; `msb` and `mbs` are the two
flags, which in the source are only ever set inside the
`check_blank_line` block. -/
def buildErrors (subject : String) (subLimit : Int) (body : List String)
    (bodyLimit : Int) (cb msb mbs : Bool) (signed_off : String) : List String :=
  (if pyStrip subject == "" then [missingSubjectMsg] else []) ++
  (if subLimit < (subject.length : Int) then [subjectError subLimit] else []) ++
  (if cb && (msb && (!(subject == "") && !body.isEmpty)) then [sepSubjectBodyMsg] else []) ++
  (if cb && (mbs && (!body.isEmpty && !(signed_off == ""))) then [sepBodySignoffMsg] else []) ++
  (if body.isEmpty then [missingBodyMsg] else []) ++
  lineErrors body bodyLimit

/-- `check_blank_line.lower() == "true"` (lines 64 and 81). -/
def checkBlankOn (check_blank_line : String) : Bool :=
  pyLower check_blank_line == "true"

/-- Body of `validate_commit_message` after the message has been split
into lines and the blank-line flag evaluated.  The first guard models
the `IndexError` of `lines[-1]` (line 60) on an empty message; the
second guard models the `IndexError` of `lines[-2]` (line 73), reached
exactly when blank-line checking is on, the sign-off line is non-empty
and the message has fewer than two lines. -/
def validateCore (sha : String) (lines : List String) (sub_char_limit body_char_limit : Int)
    (cb : Bool) : Option (String × List String) :=
  if lines.isEmpty then none
  else if cb && (!(signedOffOf (lines.getLastD ("")) == "") && decide (lines.length < 2)) then
    none
  else
    some (sha,
      buildErrors (subjectOf lines) sub_char_limit (finalBody lines cb) body_char_limit cb
        (cb && missingSubBodyFlag lines)
        (cb && (!(signedOffOf (lines.getLastD ("")) == "") &&
          !(pyStrip (lines.getD (lines.length - 2) "") == "")))
        (signedOffOf (lines.getLastD (""))))

/-- `validate_commit_message(commit, sub_char_limit, body_char_limit,
check_blank_line)` (lines 48-92).  `some (sha, errors)` is the returned
pair; `none` is an uncaught `IndexError`. -/
def validate_commit_message (commit : Commit) (sub_char_limit body_char_limit : Int)
    (check_blank_line : String) : Option (String × List String) :=
  validateCore commit.sha (linesOf commit) sub_char_limit body_char_limit
    (checkBlankOn check_blank_line)

/-! ### Helper lemmas -/

lemma mem_ite_singleton {c : Prop} [Decidable c] {x y : String} :
    (x ∈ if c then [y] else ([] : List String)) ↔ c ∧ x = y := by
  by_cases h : c
  · simp [h]
  · simp [h]

lemma forall_mem_ite_singleton {c : Prop} [Decidable c] {y : String} :
    ∀ x ∈ (if c then [y] else ([] : List String)), x = y := by
  intro x hx
  exact (mem_ite_singleton.mp hx).2

/-- The error loop of lines 88-90 is the map of the error constructor over
the offending body lines, kept in body order. -/
lemma lineErrors_eq (body : List String) (limit : Int) :
    lineErrors body limit =
      (body.filter fun l => decide (limit < (l.length : Int))).map (lineError limit) := by
  induction body with
  | nil => rfl
  | cons a t ih =>
    unfold lineErrors at ih ⊢
    rw [List.filterMap_cons, List.filter_cons]
    by_cases h : limit < (a.length : Int)
    · simp [h, ih]
    · simp [h, ih]

/-- Inverting a successful run of the validator core: the line list was
non-empty and the returned pair is the built error list. -/
lemma validateCore_inv {sha : String} {lines : List String} {sl bl : Int} {cb : Bool}
    {p : String × List String} (h : validateCore sha lines sl bl cb = some p) :
    lines.isEmpty = false ∧
    p = (sha,
      buildErrors (subjectOf lines) sl (finalBody lines cb) bl cb
        (cb && missingSubBodyFlag lines)
        (cb && (!(signedOffOf (lines.getLastD ("")) == "") &&
          !(pyStrip (lines.getD (lines.length - 2) "") == "")))
        (signedOffOf (lines.getLastD ("")))) := by
  unfold validateCore at h
  by_cases h0 : lines.isEmpty = true
  · rw [if_pos h0] at h
    exact absurd h (by simp)
  · rw [if_neg h0] at h
    by_cases h1 : (cb && (!(signedOffOf (lines.getLastD ("")) == "") &&
        decide (lines.length < 2))) = true
    · rw [if_pos h1] at h
      exact absurd h (by simp)
    · rw [if_neg h1] at h
      exact ⟨by simpa using h0, (Option.some.inj h).symm⟩

/-- A successful run of the validator core, given that neither
`IndexError` guard fires. -/
lemma validateCore_eq_some (sha : String) (lines : List String) (sl bl : Int) (cb : Bool)
    (h0 : lines.isEmpty = false)
    (h1 : (cb && (!(signedOffOf (lines.getLastD ("")) == "") &&
      decide (lines.length < 2))) = false) :
    validateCore sha lines sl bl cb = some (sha,
      buildErrors (subjectOf lines) sl (finalBody lines cb) bl cb
        (cb && missingSubBodyFlag lines)
        (cb && (!(signedOffOf (lines.getLastD ("")) == "") &&
          !(pyStrip (lines.getD (lines.length - 2) "") == "")))
        (signedOffOf (lines.getLastD ("")))) := by
  unfold validateCore
  rw [if_neg (by rw [h0]; exact Bool.false_ne_true), if_neg (by rw [h1]; exact Bool.false_ne_true)]

/-- The built error list decomposes into the six segments of lines 76-90,
in order. -/
lemma buildErrors_decomp (subject : String) (sl : Int) (body : List String) (bl : Int)
    (cb msb mbs : Bool) (so : String) :
    ∃ e1 e2 e3 e4 e5, buildErrors subject sl body bl cb msb mbs so =
        e1 ++ e2 ++ e3 ++ e4 ++ e5 ++ lineErrors body bl ∧
      (∀ x ∈ e1, x = missingSubjectMsg) ∧
      (∀ x ∈ e2, x = subjectError sl) ∧
      (∀ x ∈ e3, x = sepSubjectBodyMsg) ∧
      (∀ x ∈ e4, x = sepBodySignoffMsg) ∧
      (∀ x ∈ e5, x = missingBodyMsg) := by
  exact ⟨_, _, _, _, _, rfl, forall_mem_ite_singleton, forall_mem_ite_singleton,
    forall_mem_ite_singleton, forall_mem_ite_singleton, forall_mem_ite_singleton⟩

/-- Membership in the built error list, by segment. -/
lemma mem_buildErrors {x subject so : String} {sl bl : Int} {body : List String}
    {cb msb mbs : Bool} :
    x ∈ buildErrors subject sl body bl cb msb mbs so ↔
      (pyStrip subject = "" ∧ x = missingSubjectMsg) ∨
      (sl < (subject.length : Int) ∧ x = subjectError sl) ∨
      ((cb && (msb && (!(subject == "") && !body.isEmpty))) = true ∧ x = sepSubjectBodyMsg) ∨
      ((cb && (mbs && (!body.isEmpty && !(so == "")))) = true ∧ x = sepBodySignoffMsg) ∨
      (body = [] ∧ x = missingBodyMsg) ∨
      (∃ l, l ∈ body ∧ bl < (l.length : Int) ∧ x = lineError bl l) := by
  unfold buildErrors
  rw [lineErrors_eq]
  simp only [List.mem_append, mem_ite_singleton, List.mem_map, List.mem_filter,
    decide_eq_true_eq, beq_iff_eq, List.isEmpty_iff]
  constructor
  · rintro (((((h | h) | h) | h) | h) | ⟨l, ⟨hl, hlen⟩, hx⟩)
    · exact .inl h
    · exact .inr <| .inl h
    · exact .inr <| .inr <| .inl h
    · exact .inr <| .inr <| .inr <| .inl h
    · exact .inr <| .inr <| .inr <| .inr <| .inl h
    · exact .inr <| .inr <| .inr <| .inr <| .inr ⟨l, hl, hlen, hx.symm⟩
  · rintro (h | h | h | h | h | ⟨l, hl, hlen, hx⟩)
    · exact .inl <| .inl <| .inl <| .inl <| .inl h
    · exact .inl <| .inl <| .inl <| .inl <| .inr h
    · exact .inl <| .inl <| .inl <| .inr h
    · exact .inl <| .inl <| .inr h
    · exact .inl <| .inr h
    · exact .inr ⟨l, ⟨hl, hlen⟩, hx.symm⟩

/-! ### Distinctness of the error strings -/

lemma ne_of_take {s t : String} (k : Nat) (h : s.data.take k ≠ t.data.take k) : s ≠ t :=
  fun he => h (by rw [he])

lemma subjectError_data (limit : Int) :
    (subjectError limit).data =
      "Subject exceeds ".data ++ ((toString limit).data ++ " characters!".data) := by
  simp [subjectError, String.data_append, List.append_assoc]

lemma subjectError_take9 (limit : Int) :
    (subjectError limit).data.take 9 = "Subject e".data := by
  rw [subjectError_data, List.take_append_of_le_length (by decide)]
  decide

lemma subjectError_take5 (limit : Int) :
    (subjectError limit).data.take 5 = "Subje".data := by
  rw [subjectError_data, List.take_append_of_le_length (by decide)]
  decide

lemma lineError_data (limit : Int) (line : String) :
    (lineError limit line).data =
      "Line exceeds ".data ++
        ((toString limit).data ++ (" characters: ".data ++ line.data)) := by
  simp [lineError, String.data_append, List.append_assoc]

lemma lineError_take5 (limit : Int) (line : String) :
    (lineError limit line).data.take 5 = "Line ".data := by
  rw [lineError_data, List.take_append_of_le_length (by decide)]
  decide

lemma subjectError_ne_missingSubjectMsg (l : Int) : subjectError l ≠ missingSubjectMsg :=
  ne_of_take 9 (by rw [subjectError_take9]; decide)

lemma subjectError_ne_sepSubjectBody (l : Int) : subjectError l ≠ sepSubjectBodyMsg :=
  ne_of_take 9 (by rw [subjectError_take9]; decide)

lemma subjectError_ne_sepBodySignoff (l : Int) : subjectError l ≠ sepBodySignoffMsg :=
  ne_of_take 9 (by rw [subjectError_take9]; decide)

lemma subjectError_ne_missingBodyMsg (l : Int) : subjectError l ≠ missingBodyMsg :=
  ne_of_take 9 (by rw [subjectError_take9]; decide)

lemma lineError_ne_missingSubjectMsg (bl : Int) (line : String) :
    lineError bl line ≠ missingSubjectMsg :=
  ne_of_take 5 (by rw [lineError_take5]; decide)

lemma lineError_ne_sepSubjectBody (bl : Int) (line : String) :
    lineError bl line ≠ sepSubjectBodyMsg :=
  ne_of_take 5 (by rw [lineError_take5]; decide)

lemma lineError_ne_sepBodySignoff (bl : Int) (line : String) :
    lineError bl line ≠ sepBodySignoffMsg :=
  ne_of_take 5 (by rw [lineError_take5]; decide)

lemma lineError_ne_missingBodyMsg (bl : Int) (line : String) :
    lineError bl line ≠ missingBodyMsg :=
  ne_of_take 5 (by rw [lineError_take5]; decide)

lemma lineError_ne_subjectError (bl sl : Int) (line : String) :
    lineError bl line ≠ subjectError sl :=
  ne_of_take 5 (by rw [lineError_take5, subjectError_take5]; decide)

/-! ### More inversion helpers -/

/-- A successful run of `validate_commit_message` returns the commit's sha
and the built error list. -/
lemma validate_inv {c : Commit} {sl bl : Int} {cbl : String} {p : String × List String}
    (h : validate_commit_message c sl bl cbl = some p) :
    p.2 = buildErrors (subjectOf (linesOf c)) sl (finalBody (linesOf c) (checkBlankOn cbl)) bl
      (checkBlankOn cbl) ((checkBlankOn cbl) && missingSubBodyFlag (linesOf c))
      ((checkBlankOn cbl) && (!(signedOffOf ((linesOf c).getLastD ("")) == "") &&
        !(pyStrip ((linesOf c).getD ((linesOf c).length - 2) "") == "")))
      (signedOffOf ((linesOf c).getLastD (""))) ∧
    p.1 = c.sha := by
  unfold validate_commit_message at h
  obtain ⟨-, hp⟩ := validateCore_inv h
  rw [hp]
  exact ⟨rfl, rfl⟩

lemma getLastD_mem (l : List String) (d : String) (h : l ≠ []) : l.getLastD d ∈ l := by
  rw [List.getLastD_eq_getLast?, List.getLast?_eq_getLast l h]
  simp only [Option.getD_some]
  exact List.getLast_mem h

lemma getLastD_cons_cons (a b : String) (t : List String) (d : String) :
    (a :: b :: t).getLastD d = (b :: t).getLastD d := by
  rw [List.getLastD_eq_getLast?, List.getLastD_eq_getLast?, List.getLast?_cons_cons]

/-- A last line that passes the body filter ends up, stripped, in the body
used for error reporting, whichever branch computed that body. -/
lemma mem_finalBody_of_last (lines : List String) (lst : String) (cb : Bool)
    (hn : 2 ≤ lines.length) (hlast : lines.getLastD ("") = lst)
    (hbl : isBodyLine lst = true) :
    pyStrip lst ∈ finalBody lines cb := by
  obtain ⟨a, b, t, rfl⟩ : ∃ a b t, lines = a :: b :: t := by
    match lines with
    | [] => simp at hn
    | [a] => simp at hn
    | a :: b :: t => exact ⟨a, b, t, rfl⟩
  have hmem1 : lst ∈ b :: t := by
    rw [getLastD_cons_cons] at hlast
    rw [← hlast]
    exact getLastD_mem _ _ (by simp)
  have hini : pyStrip lst ∈ initialBody (a :: b :: t) := by
    show pyStrip lst ∈ (List.filter isBodyLine (b :: t)).map pyStrip
    exact List.mem_map.mpr ⟨lst, List.mem_filter.mpr ⟨hmem1, hbl⟩, rfl⟩
  unfold finalBody
  by_cases hcb : cb = true
  · by_cases hf : missingSubBodyFlag (a :: b :: t) = true
    · simpa [hcb, hf] using hini
    · have hb : pyStrip b = "" := by
        unfold missingSubBodyFlag at hf
        simpa using hf
      cases t with
      | nil =>
        have hlb : lst = b := by
          rw [← hlast]
          rfl
        have hfalse : isBodyLine b = false := by
          unfold isBodyLine
          rw [hb]
          simp
        rw [hlb, hfalse] at hbl
        exact absurd hbl (by simp)
      | cons e t2 =>
        have hmem2 : lst ∈ e :: t2 := by
          rw [getLastD_cons_cons, getLastD_cons_cons] at hlast
          rw [← hlast]
          exact getLastD_mem _ _ (by simp)
        have hrec : pyStrip lst ∈ recomputedBody (a :: b :: e :: t2) := by
          show pyStrip lst ∈ (List.filter isBodyLine (e :: t2)).map pyStrip
          exact List.mem_map.mpr ⟨lst, List.mem_filter.mpr ⟨hmem2, hbl⟩, rfl⟩
        simpa [hcb, hf] using hrec
  · have hcf : cb = false := by
      revert hcb
      cases cb <;> simp
    simpa [hcf] using hini

/-- The built error list is a block of non-line errors followed by exactly
the line-exceeds-limit errors of the body, in body order. -/
lemma buildErrors_line_decomp (subject : String) (sl : Int) (body : List String) (bl : Int)
    (cb msb mbs : Bool) (so : String) :
    ∃ pre, buildErrors subject sl body bl cb msb mbs so =
        pre ++ (body.filter fun l => decide (bl < (l.length : Int))).map (lineError bl) ∧
      ∀ x ∈ pre, ∀ l : String, x ≠ lineError bl l := by
  refine ⟨(if pyStrip subject == "" then [missingSubjectMsg] else []) ++
    (if sl < (subject.length : Int) then [subjectError sl] else []) ++
    (if cb && (msb && (!(subject == "") && !body.isEmpty)) then [sepSubjectBodyMsg] else []) ++
    (if cb && (mbs && (!body.isEmpty && !(so == ""))) then [sepBodySignoffMsg] else []) ++
    (if body.isEmpty then [missingBodyMsg] else []), ?_, ?_⟩
  · unfold buildErrors
    rw [lineErrors_eq]
  · intro x hx l
    simp only [List.mem_append, mem_ite_singleton] at hx
    rcases hx with ((((⟨-, hx⟩ | ⟨-, hx⟩) | ⟨-, hx⟩) | ⟨-, hx⟩) | ⟨-, hx⟩)
    · rw [hx]
      exact (lineError_ne_missingSubjectMsg bl l).symm
    · rw [hx]
      exact (lineError_ne_subjectError bl sl l).symm
    · rw [hx]
      exact (lineError_ne_sepSubjectBody bl l).symm
    · rw [hx]
      exact (lineError_ne_sepBodySignoff bl l).symm
    · rw [hx]
      exact (lineError_ne_missingBodyMsg bl l).symm

/-! ### Test-suite messages -/

/-- The valid sample message of the reference test suite. -/
def sampleMessage : String :=
  "Valid subject\n\nThis is a valid description line.\nIt continues here.\n\nSigned-off-by: Developer <dev@example.com>"

/-- The over-length-subject message of the reference test suite (no blank
line between subject and description). -/
def longSubjectMessage : String :=
  "This subject line is way too long and should definitely fail the check\nValid description line.\n\nSigned-off-by: Developer <dev@example.com>"

/-! ### The claims -/

/-- Claim C1: the claim (and the spec) say `validate_commit_message` always
returns a `(sha, errors)` pair and never raises, and that for the empty
message both the missing-subject and missing-body errors fire.  The code
instead raises `IndexError` at `lines[-1]` (line 60) on the empty message —
whatever the blank-line setting, since line 60 runs before the blank-line
block — and also at `lines[-2]` (line 73) on a one-line sign-off message
when blank-line checking is on.  Both uncaught exceptions are modelled as
`none`. -/
theorem c1_empty_message_raises :
    validate_commit_message ⟨"abc123", ""⟩ 50 72 ("true") = none ∧
    validate_commit_message ⟨"abc123", ""⟩ 50 72 ("false") = none ∧
    validate_commit_message ⟨"abc123", "Signed-off-by: Developer <dev@example.com>"⟩
      50 72 ("true") = none :=
  ⟨rfl, rfl, rfl⟩

/-- Claim C2: whenever the validator returns an error list, that list is a
concatenation, in this exact order, of: missing-subject errors,
subject-exceeds-limit errors, subject/body-separation errors,
body/sign-off-separation errors, missing-body errors, and one
line-exceeds-limit error per offending body line, in body order. -/
theorem c2_errors_ordered_by_type (c : Commit) (sl bl : Int) (cbl : String)
    (p : String × List String)
    (h : validate_commit_message c sl bl cbl = some p) :
    ∃ e1 e2 e3 e4 e5, p.2 = e1 ++ e2 ++ e3 ++ e4 ++ e5 ++
        lineErrors (finalBody (linesOf c) (checkBlankOn cbl)) bl ∧
      (∀ x ∈ e1, x = missingSubjectMsg) ∧
      (∀ x ∈ e2, x = subjectError sl) ∧
      (∀ x ∈ e3, x = sepSubjectBodyMsg) ∧
      (∀ x ∈ e4, x = sepBodySignoffMsg) ∧
      (∀ x ∈ e5, x = missingBodyMsg) := by
  obtain ⟨h2, -⟩ := validate_inv h
  rw [h2]
  exact buildErrors_decomp _ _ _ _ _ _ _ _

theorem c2_errors_ordered_by_type_witness :
    ∃ e1 e2 e3 e4 e5, ([missingBodyMsg] : List String) = e1 ++ e2 ++ e3 ++ e4 ++ e5 ++
        lineErrors (finalBody (linesOf ⟨"w2", "a"⟩) (checkBlankOn ("false"))) 72 ∧
      (∀ x ∈ e1, x = missingSubjectMsg) ∧
      (∀ x ∈ e2, x = subjectError 50) ∧
      (∀ x ∈ e3, x = sepSubjectBodyMsg) ∧
      (∀ x ∈ e4, x = sepBodySignoffMsg) ∧
      (∀ x ∈ e5, x = missingBodyMsg) :=
  c2_errors_ordered_by_type ⟨"w2", "a"⟩ 50 72 ("false") ("w2", [missingBodyMsg]) rfl

/-- Claim C3: on the reference test suite's valid message (subject, blank
line, two description lines, blank line, Signed-off-by trailer), with
subject limit 50, body limit 72 and blank-line checking on, the validator
returns the caller-supplied sha unchanged and an empty error list. -/
theorem c3_valid_message_no_errors (sha : String) :
    validate_commit_message ⟨sha, sampleMessage⟩ 50 72 ("true") =
      some (sha, ([] : List String)) :=
  rfl

theorem c3_valid_message_no_errors_witness :
    validate_commit_message ⟨"abc123", sampleMessage⟩ 50 72 ("true") =
      some (("abc123"), ([] : List String)) :=
  c3_valid_message_no_errors ("abc123")

/-- Claim C4: whenever the validator returns an error list, the
subject-exceeds-limit error is present exactly when the untrimmed length of
line 0 exceeds the subject limit, and that error's text contains the limit
value. -/
theorem c4_subject_limit_iff (c : Commit) (sl bl : Int) (cbl : String)
    (p : String × List String)
    (h : validate_commit_message c sl bl cbl = some p) :
    (subjectError sl ∈ p.2 ↔ sl < ((subjectOf (linesOf c)).length : Int)) ∧
    (toString sl).data <:+: (subjectError sl).data := by
  obtain ⟨h2, -⟩ := validate_inv h
  constructor
  · rw [h2, mem_buildErrors]
    constructor
    · rintro (⟨-, hx⟩ | ⟨hlen, -⟩ | ⟨-, hx⟩ | ⟨-, hx⟩ | ⟨-, hx⟩ | ⟨l, -, -, hx⟩)
      · exact absurd hx (subjectError_ne_missingSubjectMsg sl)
      · exact hlen
      · exact absurd hx (subjectError_ne_sepSubjectBody sl)
      · exact absurd hx (subjectError_ne_sepBodySignoff sl)
      · exact absurd hx (subjectError_ne_missingBodyMsg sl)
      · exact absurd hx.symm (lineError_ne_subjectError bl sl l)
    · intro hlen
      exact Or.inr (Or.inl ⟨hlen, rfl⟩)
  · exact ⟨"Subject exceeds ".data, " characters!".data, by
      rw [subjectError_data]; simp [List.append_assoc]⟩

theorem c4_subject_limit_iff_witness :
    (subjectError 50 ∈ ([subjectError 50] : List String) ↔
      (50 : Int) < ((subjectOf (linesOf ⟨"def456", longSubjectMessage⟩)).length : Int)) ∧
    (toString (50 : Int)).data <:+: (subjectError 50).data :=
  c4_subject_limit_iff ⟨"def456", longSubjectMessage⟩ 50 72 ("false")
    ("def456", [subjectError 50]) rfl

/-- Claim C5: with blank-line checking disabled (`check_blank_line` not the
string "true" up to case), neither separation error can ever be returned;
and on the test suite's over-length-subject message with a body and a
trailer, the only error is the subject-exceeds-limit one. -/
theorem c5_no_separator_errors_when_disabled :
    (∀ (c : Commit) (sl bl : Int) (cbl : String) (p : String × List String),
      checkBlankOn cbl = false →
      validate_commit_message c sl bl cbl = some p →
      sepSubjectBodyMsg ∉ p.2 ∧ sepBodySignoffMsg ∉ p.2) ∧
    validate_commit_message ⟨"def456", longSubjectMessage⟩ 50 72 ("false") =
      some (("def456"), [subjectError 50]) := by
  constructor
  · intro c sl bl cbl p hcb h
    obtain ⟨h2, -⟩ := validate_inv h
    rw [h2]
    constructor
    · intro hx
      rcases mem_buildErrors.mp hx with
        (⟨-, hx⟩ | ⟨-, hx⟩ | ⟨hc, -⟩ | ⟨-, hx⟩ | ⟨-, hx⟩ | ⟨l, -, -, hx⟩)
      · exact absurd hx (by decide)
      · exact absurd hx.symm (subjectError_ne_sepSubjectBody sl)
      · rw [hcb] at hc
        exact absurd hc (by simp)
      · exact absurd hx (by decide)
      · exact absurd hx (by decide)
      · exact absurd hx.symm (lineError_ne_sepSubjectBody bl l)
    · intro hx
      rcases mem_buildErrors.mp hx with
        (⟨-, hx⟩ | ⟨-, hx⟩ | ⟨-, hx⟩ | ⟨hc, -⟩ | ⟨-, hx⟩ | ⟨l, -, -, hx⟩)
      · exact absurd hx (by decide)
      · exact absurd hx.symm (subjectError_ne_sepBodySignoff sl)
      · exact absurd hx (by decide)
      · rw [hcb] at hc
        exact absurd hc (by simp)
      · exact absurd hx (by decide)
      · exact absurd hx.symm (lineError_ne_sepBodySignoff bl l)
  · rfl

theorem c5_no_separator_errors_when_disabled_witness :
    sepSubjectBodyMsg ∉ ([subjectError 50] : List String) ∧
    sepBodySignoffMsg ∉ ([subjectError 50] : List String) :=
  c5_no_separator_errors_when_disabled.1 ⟨"def456", longSubjectMessage⟩ 50 72 ("false")
    ("def456", [subjectError 50]) rfl rfl

/-- Claim C6: with blank-line checking on, more than one line, a non-blank
line 1, a non-empty subject and a non-empty body candidate, the validator
returns normally and its error list contains the subject/body-separation
error; and when the subject moreover exceeds the limit, the
subject-exceeds-limit error is present as well. -/
theorem c6_separator_error_when_enabled (c : Commit) (sl bl : Int) (cbl : String)
    (hcb : checkBlankOn cbl = true)
    (hn : 1 < (linesOf c).length)
    (h1 : ¬ pyStrip ((linesOf c).getD 1 "") = "")
    (hsub : ¬ subjectOf (linesOf c) = "")
    (hbody : ¬ initialBody (linesOf c) = []) :
    ∃ errs, validate_commit_message c sl bl cbl = some (c.sha, errs) ∧
      sepSubjectBodyMsg ∈ errs ∧
      (sl < ((subjectOf (linesOf c)).length : Int) → subjectError sl ∈ errs) := by
  have h0 : (linesOf c).isEmpty = false := by
    cases hl : linesOf c with
    | nil => rw [hl] at hn; simp at hn
    | cons a t => rfl
  have hguard : ((checkBlankOn cbl) && (!(signedOffOf ((linesOf c).getLastD ("")) == "") &&
      decide ((linesOf c).length < 2))) = false := by
    have hd : decide ((linesOf c).length < 2) = false := by
      simp only [decide_eq_false_iff_not]
      omega
    rw [hd]
    simp
  have hflag : missingSubBodyFlag (linesOf c) = true := by
    have hbne : (pyStrip ((linesOf c).getD 1 "") == "") = false :=
      beq_eq_false_iff_ne.mpr h1
    unfold missingSubBodyFlag
    rw [decide_eq_true hn, Bool.true_and, hbne]
    rfl
  have hfb : finalBody (linesOf c) (checkBlankOn cbl) = initialBody (linesOf c) := by
    unfold finalBody
    rw [hcb]
    simp [hflag]
  refine ⟨buildErrors (subjectOf (linesOf c)) sl (finalBody (linesOf c) (checkBlankOn cbl)) bl
    (checkBlankOn cbl) ((checkBlankOn cbl) && missingSubBodyFlag (linesOf c))
    ((checkBlankOn cbl) && (!(signedOffOf ((linesOf c).getLastD ("")) == "") &&
      !(pyStrip ((linesOf c).getD ((linesOf c).length - 2) "") == "")))
    (signedOffOf ((linesOf c).getLastD (""))), ?_, ?_, ?_⟩
  · unfold validate_commit_message
    exact validateCore_eq_some c.sha (linesOf c) sl bl (checkBlankOn cbl) h0 hguard
  · apply mem_buildErrors.mpr
    refine Or.inr (Or.inr (Or.inl ⟨?_, rfl⟩))
    rw [hfb, hcb, hflag]
    simp [hsub, List.isEmpty_iff, hbody]
  · intro hlen
    exact mem_buildErrors.mpr (Or.inr (Or.inl ⟨hlen, rfl⟩))

theorem c6_separator_error_when_enabled_witness :
    ∃ errs, validate_commit_message ⟨"def456", longSubjectMessage⟩ 50 72 ("true") =
        some (("def456"), errs) ∧
      sepSubjectBodyMsg ∈ errs ∧
      ((50 : Int) < ((subjectOf (linesOf ⟨"def456", longSubjectMessage⟩)).length : Int) →
        subjectError 50 ∈ errs) :=
  c6_separator_error_when_enabled ⟨"def456", longSubjectMessage⟩ 50 72 ("true")
    rfl (by decide) (by decide) (by decide) (by decide)

/-- Claim C7: whenever the validator returns an error list, it ends with
exactly the line-exceeds-limit errors: one per body line whose (trimmed)
length exceeds the body limit, in body order, each naming the limit and
the line; and no error before them is a line-exceeds-limit error. -/
theorem c7_line_limit_errors (c : Commit) (sl bl : Int) (cbl : String)
    (p : String × List String)
    (h : validate_commit_message c sl bl cbl = some p) :
    ∃ pre, p.2 = pre ++
        ((finalBody (linesOf c) (checkBlankOn cbl)).filter fun l =>
          decide (bl < (l.length : Int))).map (lineError bl) ∧
      ∀ x ∈ pre, ∀ l : String, x ≠ lineError bl l := by
  obtain ⟨h2, -⟩ := validate_inv h
  obtain ⟨pre, hpre, hnl⟩ := buildErrors_line_decomp (subjectOf (linesOf c)) sl
    (finalBody (linesOf c) (checkBlankOn cbl)) bl (checkBlankOn cbl)
    ((checkBlankOn cbl) && missingSubBodyFlag (linesOf c))
    ((checkBlankOn cbl) && (!(signedOffOf ((linesOf c).getLastD ("")) == "") &&
      !(pyStrip ((linesOf c).getD ((linesOf c).length - 2) "") == "")))
    (signedOffOf ((linesOf c).getLastD ("")))
  exact ⟨pre, by rw [h2]; exact hpre, hnl⟩

theorem c7_line_limit_errors_witness :
    ∃ pre, ([lineError 5 ("abcdef Signed-off-by: dev")] : List String) = pre ++
        ((finalBody (linesOf ⟨"w10", "Subj\n\nabcdef Signed-off-by: dev"⟩)
          (checkBlankOn ("false"))).filter fun l =>
          decide ((5 : Int) < (l.length : Int))).map (lineError 5) ∧
      ∀ x ∈ pre, ∀ l : String, x ≠ lineError 5 l :=
  c7_line_limit_errors ⟨"w10", "Subj\n\nabcdef Signed-off-by: dev"⟩ 50 5 ("false")
    ("w10", [lineError 5 ("abcdef Signed-off-by: dev")]) rfl

/-- Claim C8: the blank-line checks are controlled by comparing the
lowercased `check_blank_line` string with "true": a string lowercasing to
"true" behaves like "true", and any other string behaves exactly like
"false". -/
theorem c8_check_blank_line_string_compare (c : Commit) (sl bl : Int) (s : String) :
    (pyLower s = "true" →
      validate_commit_message c sl bl s = validate_commit_message c sl bl ("true")) ∧
    (¬ pyLower s = "true" →
      validate_commit_message c sl bl s = validate_commit_message c sl bl ("false")) := by
  constructor
  · intro hs
    unfold validate_commit_message
    have he : checkBlankOn s = checkBlankOn ("true") := by
      unfold checkBlankOn
      rw [hs]
      rfl
    rw [he]
  · intro hs
    unfold validate_commit_message
    have he : checkBlankOn s = checkBlankOn ("false") := by
      unfold checkBlankOn
      have h1 : (pyLower s == "true") = false := by
        simp [hs]
      rw [h1]
      decide
    rw [he]

theorem c8_check_blank_line_string_compare_witness :
    validate_commit_message ⟨"w8", "a"⟩ 50 72 ("yes") =
      validate_commit_message ⟨"w8", "a"⟩ 50 72 ("false") :=
  (c8_check_blank_line_string_compare ⟨"w8", "a"⟩ 50 72 ("yes")).2 (by decide)

/-- Claim C9: when line 1 is blank or absent, the body recomputed from
line 2 onward equals the body initially computed from line 1 onward (the
filter drops blank lines anyway), so the recompute branch of the
blank-line check never changes the body. -/
theorem c9_recompute_preserves_body (lines : List String)
    (h : lines.length ≤ 1 ∨ pyStrip (lines.getD 1 "") = "") :
    recomputedBody lines = initialBody lines ∧
    finalBody lines true = initialBody lines := by
  have hmain : recomputedBody lines = initialBody lines := by
    cases lines with
    | nil => rfl
    | cons a t =>
      cases t with
      | nil => rfl
      | cons b t2 =>
        have hb : pyStrip b = "" := by
          rcases h with h | h
          · simp at h
          · simpa using h
        show (List.filter isBodyLine t2).map pyStrip =
          (List.filter isBodyLine (b :: t2)).map pyStrip
        rw [List.filter_cons]
        have hfalse : isBodyLine b = false := by
          unfold isBodyLine
          rw [hb]
          simp
        simp [hfalse]
  refine ⟨hmain, ?_⟩
  unfold finalBody
  by_cases hf : missingSubBodyFlag lines = true
  · simp [hf]
  · simp [hf, hmain]

theorem c9_recompute_preserves_body_witness :
    recomputedBody ["a"] = initialBody ["a"] ∧
    finalBody ["a"] true = initialBody ["a"] :=
  c9_recompute_preserves_body ["a"] (Or.inl (by decide))

/-- Claim C10: a last line that contains "signed-off-by" (case-insensitive)
without beginning with it is both the sign-off line and — stripped — a
retained body line: it makes the reported body non-empty (so the
missing-body error cannot fire) and, when longer than the body limit, it
produces its own line-exceeds-limit error. -/
theorem c10_trailing_signoff_in_body (c : Commit) (sl bl : Int) (cbl : String)
    (p : String × List String) (lst : String)
    (hn : 2 ≤ (linesOf c).length)
    (hlast : (linesOf c).getLastD ("") = lst)
    (hcontains : pyContains (pyLower lst) sobText = true)
    (hstart : pyStartsWith (pyLower lst) sobText = false)
    (hne : ¬ pyStrip lst = "")
    (h : validate_commit_message c sl bl cbl = some p) :
    signedOffOf lst = lst ∧
    pyStrip lst ∈ finalBody (linesOf c) (checkBlankOn cbl) ∧
    missingBodyMsg ∉ p.2 ∧
    (bl < ((pyStrip lst).length : Int) → lineError bl (pyStrip lst) ∈ p.2) := by
  have hbl : isBodyLine lst = true := by
    unfold isBodyLine
    rw [hstart]
    simp [hne]
  have hsig : signedOffOf lst = lst := by
    unfold signedOffOf
    rw [if_pos hcontains]
  obtain ⟨h2, -⟩ := validate_inv h
  have hmem := mem_finalBody_of_last (linesOf c) lst (checkBlankOn cbl) hn hlast hbl
  refine ⟨hsig, hmem, ?_, ?_⟩
  · rw [h2]
    intro hx
    rcases mem_buildErrors.mp hx with
      (⟨-, hx⟩ | ⟨-, hx⟩ | ⟨-, hx⟩ | ⟨-, hx⟩ | ⟨hempty, -⟩ | ⟨l, -, -, hx⟩)
    · exact absurd hx (by decide)
    · exact absurd hx.symm (subjectError_ne_missingBodyMsg sl)
    · exact absurd hx (by decide)
    · exact absurd hx (by decide)
    · rw [hempty] at hmem
      exact absurd hmem (List.not_mem_nil _)
    · exact absurd hx.symm (lineError_ne_missingBodyMsg bl l)
  · intro hlen
    rw [h2]
    exact mem_buildErrors.mpr
      (Or.inr (Or.inr (Or.inr (Or.inr (Or.inr ⟨pyStrip lst, hmem, hlen, rfl⟩)))))

theorem c10_trailing_signoff_in_body_witness :
    signedOffOf ("abcdef Signed-off-by: dev") = ("abcdef Signed-off-by: dev") ∧
    pyStrip ("abcdef Signed-off-by: dev") ∈
      finalBody (linesOf ⟨"w10b", "Subj\n\nabcdef Signed-off-by: dev"⟩)
        (checkBlankOn ("true")) ∧
    missingBodyMsg ∉ ([lineError 5 (pyStrip ("abcdef Signed-off-by: dev"))] : List String) ∧
    ((5 : Int) < ((pyStrip ("abcdef Signed-off-by: dev")).length : Int) →
      lineError 5 (pyStrip ("abcdef Signed-off-by: dev")) ∈
        ([lineError 5 (pyStrip ("abcdef Signed-off-by: dev"))] : List String)) :=
  c10_trailing_signoff_in_body ⟨"w10b", "Subj\n\nabcdef Signed-off-by: dev"⟩ 50 5 ("true")
    ("w10b", [lineError 5 (pyStrip ("abcdef Signed-off-by: dev"))])
    ("abcdef Signed-off-by: dev") (by decide) rfl (by decide) (by decide) (by decide) rfl

end CheckCommits
